import Mathlib

set_option autoImplicit false

namespace IDS

/-!
Shallow embedding of the IDS supervision core (Python sources under
`python_env/`): the resource governor's throttle computation, the
connectivity cycle, the config manager's validation and endpoint
mutator, the control-API start/stop routes and the phase-G monitor.
Floats are modelled as exact rationals; Python dicts as ordered
association lists.
-/

/-! ### Resource governor (`modules/resource_controller.py`) -/

/-- The dictionary returned by `ConfigManager.get_resource_limits`. -/
structure ResourceLimits where
  max_cpu_percent : ℚ
  max_ram_percent : ℚ
  throttle_threshold_1 : ℚ
  throttle_threshold_2 : ℚ
  throttle_threshold_3 : ℚ
deriving DecidableEq

/-- Source `ResourceController._calculate_throttle_level`: cascading
`max_usage >= threshold` comparisons, highest tier first. -/
def calculate_throttle_level (limits : ResourceLimits) (cpu ram : ℚ) : ℕ :=
  if limits.throttle_threshold_3 ≤ max cpu ram then 3
  else if limits.throttle_threshold_2 ≤ max cpu ram then 2
  else if limits.throttle_threshold_1 ≤ max cpu ram then 1
  else 0

/-- Source `ResourceController._should_force_gc`: RAM strictly above 65 and
strictly more than 30 seconds since the last forced collection. -/
def should_force_gc (now last_gc ram : ℚ) : Bool :=
  decide (ram > 65) && decide (now - last_gc > 30)

/-- The gc step of `ResourceController._monitor_loop`: when
`_should_force_gc` holds, collect and write the current time into
`last_gc_time`; returns (new last_gc_time, whether a reclaim fired). -/
def monitor_gc_step (now last_gc ram : ℚ) : ℚ × Bool :=
  if should_force_gc now last_gc ram then (now, true) else (last_gc, false)

/-- Claim C7 as stated: trigger iff RAM above 65 and AT LEAST 30 s
elapsed (the code requires strictly more than 30 s). -/
def claimC7 : Prop :=
  ∀ now last_gc ram : ℚ, should_force_gc now last_gc ram = true ↔ (ram > 65 ∧ now - last_gc ≥ 30)

/-- Thresholds of end-to-end scenario 1 of the spec (50/60/70, caps 70/70). -/
def demoLimits : ResourceLimits := ⟨70, 70, 50, 60, 70⟩

/-! ### Configuration model (`modules/config_manager.py`, `modules/env_utils.py`)

The YAML configuration is modelled at the two levels the validation and
mutation code actually traverses: a top-level ordered dictionary of
sections, each section an ordered dictionary of scalar leaves. -/

/-- A scalar YAML leaf: string, number or boolean. -/
inductive Leaf where
  | s : String → Leaf
  | n : ℚ → Leaf
  | b : Bool → Leaf
deriving DecidableEq

abbrev SectionV := List (String × Leaf)

abbrev Config := List (String × SectionV)

/-- Python `dict.get`: the value at the first matching key. -/
def dictGet {α : Type} : List (String × α) → String → Option α
  | [], _ => none
  | kv :: rest, k => if kv.1 = k then some kv.2 else dictGet rest k

/-- Python `key in dict`. -/
def dictContains {α : Type} (m : List (String × α)) (k : String) : Bool :=
  (dictGet m k).isSome

/-- Replace the value at an existing key, keeping insertion order. -/
def dictSetIn {α : Type} : List (String × α) → String → α → List (String × α)
  | [], _, _ => []
  | kv :: rest, k, v => (if kv.1 = k then (k, v) else kv) :: dictSetIn rest k v

/-- Python `dict[k] = v`: update in place when present, else append. -/
def dictSet {α : Type} (m : List (String × α)) (k : String) (v : α) : List (String × α) :=
  if dictContains m k then dictSetIn m k v else m ++ [(k, v)]

/-- The process environment; `none` means the variable is unset. -/
abbrev Env := String → Option String

/-- Python truthiness of `os.getenv(name)`: set and non-empty. -/
def envTruthy (env : Env) (name : String) : Bool :=
  match env name with
  | some v => if v = ("") then false else true
  | none => false

/-- Source `env_utils.validate_env_placeholder`: passes (returns `true`) unless
the value equals the placeholder string while the variable is unset or
empty, in which case the Python code raises `ValueError`. -/
def validate_env_placeholder (env : Env) (value : Option Leaf) (placeholder env_var : String) : Bool :=
  if value = some (Leaf.s placeholder) then envTruthy env env_var else true

/-- Source `ConfigManager._validate_config`: the sixteen required sections. -/
def required_sections : List String :=
  ["raspberry_pi", "resources", "aws", "docker", "vector", "suricata",
   "monitoring", "git", "opensearch_credentials", "opensearch_creation",
   "raspberry_pi_remote", "testing", "features", "timeouts", "retry",
   "health_checks"]

/-- Numeric view of a leaf; a missing or non-numeric value makes the
Python bound check raise (`KeyError`/`TypeError`). -/
def leafNum : Option Leaf → Option ℚ
  | some (Leaf.n q) => some q
  | _ => none

/-- The `resources` bound checks of `_validate_config`:
`0 <= max_cpu_percent <= 100` and `0 <= max_ram_percent <= 100`. -/
def resource_bounds_ok (cfg : Config) : Bool :=
  match dictGet cfg ("resources") with
  | none => false
  | some res =>
    match leafNum (dictGet res ("max_cpu_percent")), leafNum (dictGet res ("max_ram_percent")) with
    | some c, some r => decide (0 ≤ c) && decide (c ≤ 100) && decide (0 ≤ r) && decide (r ≤ 100)
    | _, _ => false

/-- One placeholder validation site in `_validate_config`: the section,
the key, and the environment variable (which is also the placeholder
string the value is compared against). -/
structure PlaceholderCheck where
  sectionName : String
  keyName : String
  envVar : String
deriving DecidableEq

/-- The eight placeholder validation sites of `_validate_config`. -/
def placeholder_checks : List PlaceholderCheck :=
  [⟨"opensearch_credentials", "master_user", "OPENSEARCH_MASTER_USER"⟩,
   ⟨"opensearch_credentials", "master_pass", "OPENSEARCH_MASTER_PASS"⟩,
   ⟨"monitoring", "grafana_admin_user", "GRAFANA_ADMIN_USER"⟩,
   ⟨"monitoring", "grafana_admin_password", "GRAFANA_ADMIN_PASSWORD"⟩,
   ⟨"git", "author_name", "GIT_AUTHOR_NAME"⟩,
   ⟨"git", "author_email", "GIT_AUTHOR_EMAIL"⟩,
   ⟨"git", "committer_name", "GIT_COMMITTER_NAME"⟩,
   ⟨"git", "committer_email", "GIT_COMMITTER_EMAIL"⟩]

/-- Python `config.get(section, \x7b\x7d).get(key)`. -/
def sectionGet (cfg : Config) (s k : String) : Option Leaf :=
  match dictGet cfg s with
  | some sec => dictGet sec k
  | none => none

/-- Source `ConfigManager._validate_config` as a Boolean: required sections
present, resource bounds valid, and every placeholder site passes.
(The network-interface check only logs a warning and cannot fail.) -/
def validate_config (env : Env) (cfg : Config) : Bool :=
  required_sections.all (fun s => dictContains cfg s) &&
  resource_bounds_ok cfg &&
  placeholder_checks.all
    (fun c => validate_env_placeholder env (sectionGet cfg c.sectionName c.keyName) c.envVar c.envVar)

/-- Source `ConfigManager.reload`: re-read the saved file and re-validate;
the YAML `safe_dump`/`safe_load` round trip is modelled as the identity
on the two-level config, and a validation failure raises (no config). -/
def reload_config (env : Env) (fileCfg : Config) : Option Config :=
  if validate_config env fileCfg then some fileCfg else none

/-- Source `ConfigManager.set_aws_opensearch_endpoint` followed by
`_save_config`: ensure the `aws` section exists, set its
`opensearch_endpoint` key, and write the whole config back. -/
def set_aws_opensearch_endpoint (cfg : Config) (endpoint : String) : Config :=
  let cfg' := if dictContains cfg ("aws") then cfg else dictSet cfg ("aws") []
  match dictGet cfg' ("aws") with
  | some sec => dictSet cfg' ("aws") (dictSet sec ("opensearch_endpoint") (Leaf.s endpoint))
  | none => cfg'

/-- Every string leaf occurring in the configuration. -/
def config_strings (cfg : Config) : List String :=
  (cfg.map (fun s => s.2.filterMap (fun kv =>
    match kv.2 with
    | Leaf.s v => some v
    | _ => none))).flatten

/-- Whether a string is of the spec's `ENV:NAME` form. -/
def has_env_form (v : String) : Bool :=
  decide (v.data.take 4 = ['E', 'N', 'V', ':'])

/-- Claim C4 as stated: load succeeds iff every configuration string of
the form `ENV:NAME` names a set, non-empty environment variable. -/
def claimC4 (env : Env) (cfg : Config) : Prop :=
  (validate_config env cfg = true) ↔
    (∀ v ∈ config_strings cfg, has_env_form v = true → envTruthy env (v.drop 4) = true)

/-- The always-empty environment. -/
def envEmpty : Env := fun _ => none

/-- A configuration passing every check in `_validate_config` while
containing the literal string `ENV:OPENSEARCH_MASTER_USER`, which the
validation code never inspects. -/
def cfgC4 : Config :=
  [("raspberry_pi", []),
   ("resources", [("max_cpu_percent", Leaf.n 70), ("max_ram_percent", Leaf.n 70)]),
   ("aws", []), ("docker", []), ("vector", []), ("suricata", []),
   ("monitoring", []), ("git", []),
   ("opensearch_credentials", [("master_user", Leaf.s ("ENV:OPENSEARCH_MASTER_USER"))]),
   ("opensearch_creation", []), ("raspberry_pi_remote", []), ("testing", []),
   ("features", []), ("timeouts", []), ("retry", []), ("health_checks", [])]

/-- An environment providing the OpenSearch master credentials. -/
def envCreds : Env := fun name =>
  if name = ("OPENSEARCH_MASTER_USER") then some ("admin")
  else if name = ("OPENSEARCH_MASTER_PASS") then some ("secret")
  else none

/-- A valid configuration whose `master_user` equals its placeholder,
so its resolution is exercised by validation. -/
def cfgCreds : Config :=
  [("raspberry_pi", []),
   ("resources", [("max_cpu_percent", Leaf.n 70), ("max_ram_percent", Leaf.n 70)]),
   ("aws", [("region", Leaf.s ("us-east-1"))]), ("docker", []), ("vector", []),
   ("suricata", []), ("monitoring", []), ("git", []),
   ("opensearch_credentials", [("master_user", Leaf.s ("OPENSEARCH_MASTER_USER"))]),
   ("opensearch_creation", []), ("raspberry_pi_remote", []), ("testing", []),
   ("features", []), ("timeouts", []), ("retry", []), ("health_checks", [])]

/-! ### Connectivity checker (`modules/connectivity_async.py`) -/

/-- The Shared State keys written by `ConnectivityChecker`. -/
structure ConnState where
  dns_ok : Bool
  tls_ok : Bool
  opensearch_ok : Bool
  aws_ready : Bool
  last_connectivity_check : ℚ
deriving DecidableEq

/-- One result of `asyncio.gather(..., return_exceptions=True)`: either
the probe's `(success, info)` tuple or a raised exception. -/
inductive GatherRes where
  | exn : String → GatherRes
  | tup : Bool → Option String → GatherRes
deriving DecidableEq

/-- Source `_run_all_checks` reads the first tuple component; a raised
exception counts as failure. -/
def gatherOk : GatherRes → Bool
  | GatherRes.tup ok _ => ok
  | GatherRes.exn _ => false

/-- What one attempt of the bulk probe encounters: an HTTP response
(status, whether the body decodes as JSON, decoder error text), a
timeout, or a transport error. -/
inductive BulkAttempt where
  | http : ℕ → Bool → String → BulkAttempt
  | timeoutErr : BulkAttempt
  | transportErr : String → BulkAttempt
deriving DecidableEq

/-- The body of `ConnectivityChecker._check_opensearch_bulk`: status in
[200, 201] then `await response.json()` then `(True, None)`; any
exception, the JSON decode error included, is caught by the trailing
`except` clauses and converted to a `(False, message)` return. -/
def check_opensearch_bulk_body : BulkAttempt → Bool × Option String
  | BulkAttempt.http st jsonOk errMsg =>
      if st = 200 ∨ st = 201 then
        (if jsonOk then (true, none) else (false, some errMsg))
      else (false, some (("HTTP ") ++ toString st))
  | BulkAttempt.timeoutErr => (false, some ("Timeout"))
  | BulkAttempt.transportErr msg => (false, some msg)

/-- Python truthiness of `aws_config.get('endpoint')`. -/
def pyTruthy : Option String → Bool
  | none => false
  | some s => if s = ("") then false else true

/-- Result of one call of `_run_all_checks`: the state written and
whether the bulk probe was performed. -/
structure CycleOutcome where
  state : ConnState
  bulk_attempted : Bool
deriving DecidableEq

/-- Source `ConnectivityChecker._run_all_checks`: with no endpoint only
`aws_ready` is cleared; otherwise DNS and TLS outcomes are recorded,
the bulk probe runs exactly when both succeeded, and `aws_ready` is the
conjunction of the three booleans just written. -/
def run_all_checks (endpoint : Option String) (dnsRes tlsRes : GatherRes)
    (bulkAttempt : BulkAttempt) (now : ℚ) (st : ConnState) : CycleOutcome :=
  if pyTruthy endpoint = false then
    ⟨{ st with aws_ready := false }, false⟩
  else
    let dnsOk := gatherOk dnsRes
    let tlsOk := gatherOk tlsRes
    let osOk := if dnsOk && tlsOk then (check_opensearch_bulk_body bulkAttempt).1 else false
    ⟨⟨dnsOk, tlsOk, osOk, dnsOk && tlsOk && osOk, now⟩, dnsOk && tlsOk⟩

/-- Claim C5's success criterion as stated: performed bulk probe
succeeds iff the HTTP status is 200 or 201. -/
def claimC5success : Prop :=
  ∀ (st : ℕ) (jsonOk : Bool) (msg : String),
    (check_opensearch_bulk_body (BulkAttempt.http st jsonOk msg)).1 = true ↔ (st = 200 ∨ st = 201)

/-- What one decorated call of `_check_opensearch_bulk` produces as
seen by tenacity: a normal return, or a raised exception of a
retryable (`aiohttp.ClientError` / `asyncio.TimeoutError`) or other
class. -/
inductive CallResult where
  | ret : Bool × Option String → CallResult
  | raisedClientError : CallResult
  | raisedTimeout : CallResult
  | raisedOther : CallResult
deriving DecidableEq

/-- Source `retry_if_exception_type((aiohttp.ClientError, asyncio.TimeoutError))`:
retry exactly when the call raised one of the two listed classes. -/
def tenacity_should_retry : CallResult → Bool
  | CallResult.raisedClientError => true
  | CallResult.raisedTimeout => true
  | _ => false

/-- Modelled from the spec: the third-party tenacity retry driver (the
decorator on `_check_opensearch_bulk` is in src, the library is not).
With `stop_after_attempt(3)` the call runs, is repeated while the
retry predicate holds, and stops after at most three attempts; the
value returned is the number of attempts performed. -/
def tenacity_attempts (call : ℕ → CallResult) : ℕ :=
  if tenacity_should_retry (call 1) then
    (if tenacity_should_retry (call 2) then 3 else 2)
  else 1

/-- The decorated bulk probe: every attempt executes the probe body,
whose `except` clauses turn each exception into a normal return. -/
def bulk_probe_call (outcome : ℕ → BulkAttempt) : ℕ → CallResult :=
  fun n => CallResult.ret (check_opensearch_bulk_body (outcome n))

/-! ### Control API (`modules/api_server.py`, `modules/docker_manager.py`) -/

/-- An HTTP response of the control API: status code and the
`{status, message}` JSON body. -/
structure ApiResponse where
  http : ℕ
  body_status : String
  body_message : String
deriving DecidableEq

/-- Python `str(bool)` as interpolated by the handlers' f-strings. -/
def py_bool_str (b : Bool) : String := if b then ("True") else ("False")

/-- Source `DockerManager.services`. -/
def docker_services : List String := ["vector", "redis", "prometheus", "grafana"]

/-- The `start_service` route of `APIServer._setup_routes`; the two
booleans are the results of the collaborator calls
(`suricata_manager.start()`, `docker_manager.restart_service`). -/
def start_service_route (service : Option String) (suricata_ok docker_ok : Bool) : ApiResponse :=
  match service with
  | none => ⟨400, ("error"), ("Service name not provided")⟩
  | some name =>
    if name = ("") then ⟨400, ("error"), ("Service name not provided")⟩
    else if name = ("suricata") then
      ⟨200, (if suricata_ok then ("success") else ("error")),
        ("Attempting to start Suricata. Success: ") ++ py_bool_str suricata_ok⟩
    else if name ∈ docker_services then
      ⟨200, (if docker_ok then ("success") else ("error")),
        ("Attempting to start/restart Docker service ") ++ name ++ (". Success: ") ++ py_bool_str docker_ok⟩
    else
      ⟨400, ("error"), ("Unknown service: ") ++ name⟩

/-- The `stop_service` route of `APIServer._setup_routes`. -/
def stop_service_route (service : Option String) (suricata_ok docker_ok : Bool) : ApiResponse :=
  match service with
  | none => ⟨400, ("error"), ("Service name not provided")⟩
  | some name =>
    if name = ("") then ⟨400, ("error"), ("Service name not provided")⟩
    else if name = ("suricata") then
      ⟨200, (if suricata_ok then ("success") else ("error")),
        ("Attempting to stop Suricata. Success: ") ++ py_bool_str suricata_ok⟩
    else if name ∈ docker_services then
      ⟨200, (if docker_ok then ("success") else ("error")),
        ("Attempting to stop Docker service ") ++ name ++ (". Success: ") ++ py_bool_str docker_ok⟩
    else
      ⟨400, ("error"), ("Unknown service: ") ++ name⟩

/-! ### Phase G monitor (`agent_mp.py`, `IDS2Agent._phase_g_monitor`) -/

/-- The per-worker restart decision of one monitor cycle: restart
exactly when the liveness probe reports not-alive. The loop keeps no
crash history; liveness is its only input. -/
def phase_g_restart (alive : Bool) : Bool := !alive

/-- Restart decisions over a sequence of 30-second detection cycles,
given the worker's liveness at each cycle. -/
def phase_g_restart_trace (aliveTrace : List Bool) : List Bool :=
  aliveTrace.map phase_g_restart

/-- Seconds between two monitor cycles (`time.sleep(30)`). -/
def monitor_cycle_seconds : ℕ := 30

/-- Claim C8's second half as stated: once a worker has crashed three
times within one minute (detections at cycles `i1 < i2 < i3` spanning
at most 60 s), it is never restarted at any later cycle `j`. -/
def claimC8_left_down : Prop :=
  ∀ (trace : List Bool) (i1 i2 i3 j : ℕ),
    i1 < i2 → i2 < i3 → i3 < j → j < trace.length →
    (i3 - i1) * monitor_cycle_seconds ≤ 60 →
    trace.getD i1 true = false → trace.getD i2 true = false → trace.getD i3 true = false →
    (phase_g_restart_trace trace).getD j false = false

/-! ## Theorems -/

/-- Claim C2: with configured thresholds T1 < T2 < T3 and m the larger
of the CPU and RAM samples, the computed throttle level is 0 iff
m < T1, 1 iff T1 ≤ m < T2, 2 iff T2 ≤ m < T3, and 3 iff m ≥ T3 (so an
input exactly equal to T3 yields level 3). -/
theorem throttle_level_bands (limits : ResourceLimits) (cpu ram : ℚ)
    (h12 : limits.throttle_threshold_1 < limits.throttle_threshold_2)
    (h23 : limits.throttle_threshold_2 < limits.throttle_threshold_3) :
    (calculate_throttle_level limits cpu ram = 0 ↔ max cpu ram < limits.throttle_threshold_1) ∧
    (calculate_throttle_level limits cpu ram = 1 ↔
      limits.throttle_threshold_1 ≤ max cpu ram ∧ max cpu ram < limits.throttle_threshold_2) ∧
    (calculate_throttle_level limits cpu ram = 2 ↔
      limits.throttle_threshold_2 ≤ max cpu ram ∧ max cpu ram < limits.throttle_threshold_3) ∧
    (calculate_throttle_level limits cpu ram = 3 ↔
      limits.throttle_threshold_3 ≤ max cpu ram) := by
  unfold calculate_throttle_level
  split_ifs with h3 h2 h1 <;>
    refine ⟨?_, ?_, ?_, ?_⟩ <;>
    constructor <;>
    intro hh <;>
    (try obtain ⟨hh1, hh2⟩ := hh) <;>
    first
      | rfl
      | linarith
      | exact ⟨by linarith, by linarith⟩

/-- Witness for C2 at the spec's scenario thresholds (50/60/70) with a
CPU sample exactly at T3. -/
theorem throttle_level_bands_witness :
    calculate_throttle_level demoLimits 70 30 = 3 ↔
      demoLimits.throttle_threshold_3 ≤ max (70 : ℚ) 30 :=
  (throttle_level_bands demoLimits 70 30 (by norm_num [demoLimits]) (by norm_num [demoLimits])).2.2.2

/-- Claim C10: the throttle computation always yields a level at most 3
and, with ordered thresholds, is monotone in the larger of the two
samples. -/
theorem throttle_level_total_monotone (limits : ResourceLimits) (c1 r1 c2 r2 : ℚ)
    (h12 : limits.throttle_threshold_1 ≤ limits.throttle_threshold_2)
    (h23 : limits.throttle_threshold_2 ≤ limits.throttle_threshold_3)
    (hm : max c1 r1 ≤ max c2 r2) :
    calculate_throttle_level limits c1 r1 ≤ calculate_throttle_level limits c2 r2 ∧
    calculate_throttle_level limits c1 r1 ≤ 3 := by
  unfold calculate_throttle_level
  constructor
  · split_ifs <;> first | omega | (exfalso; linarith)
  · split_ifs <;> omega

/-- Witness for C10: a pressure rise from (20, 30) to (65, 64) does not
lower the level. -/
theorem throttle_level_total_monotone_witness :
    calculate_throttle_level demoLimits 20 30 ≤ calculate_throttle_level demoLimits 65 64 ∧
    calculate_throttle_level demoLimits 20 30 ≤ 3 :=
  throttle_level_total_monotone demoLimits 20 30 65 64
    (by norm_num [demoLimits]) (by norm_num [demoLimits]) (by norm_num)

/-- Counterexample to claim C7 as stated: with RAM at 70 % and exactly
30 seconds elapsed since the last reclaim, the claim's "at least 30
seconds" condition holds, yet `_should_force_gc` (which requires
strictly more than 30 seconds) does not trigger. -/
theorem gc_boundary_counterexample : ¬ claimC7 := fun h =>
  absurd ((h 30 0 70).2 (by norm_num)) (by norm_num [should_force_gc])

/-- Claim C7 (amended): a reclaim is triggered iff the sampled RAM
percentage exceeds 65 and STRICTLY MORE than 30 seconds have elapsed
since the last reclaim; on triggering, the stored last-reclaim time
becomes the current time, otherwise it is unchanged. -/
theorem gc_trigger_iff (now last_gc ram : ℚ) :
    ((monitor_gc_step now last_gc ram).2 = true ↔ (ram > 65 ∧ now - last_gc > 30)) ∧
    ((monitor_gc_step now last_gc ram).2 = true → (monitor_gc_step now last_gc ram).1 = now) ∧
    ((monitor_gc_step now last_gc ram).2 = false → (monitor_gc_step now last_gc ram).1 = last_gc) := by
  unfold monitor_gc_step should_force_gc
  by_cases h1 : ram > 65 <;> by_cases h2 : now - last_gc > 30 <;> simp [h1, h2]

/-- Counterexample to claim C8 as stated: a worker found dead at cycles
0, 1 and 2 (three crash detections spanning 60 s) is nevertheless
restarted again at cycle 3, because the monitor's restart decision
ignores crash history. -/
theorem left_down_counterexample : ¬ claimC8_left_down := fun h =>
  absurd
    (h [false, false, false, false] 0 1 2 3 (by decide) (by decide) (by decide)
      (by decide) (by decide) (by decide) (by decide) (by decide))
    (by decide)

/-- Claim C8 (amended): during steady-state monitoring a worker found
dead is restarted on that detection cycle, unconditionally: the
restart decision at any cycle equals the negated liveness at that
cycle, whatever the preceding history, so a repeatedly crashing worker
is never left down. -/
theorem worker_restart_unconditional (pre : List Bool) (a : Bool) (post : List Bool) :
    (phase_g_restart_trace (pre ++ a :: post)).getD pre.length false = !a := by
  induction pre with
  | nil => simp [phase_g_restart_trace, phase_g_restart]
  | cons b rest ih => simpa [phase_g_restart_trace, List.getD] using ih

/-- Claim C6: the bulk probe's `except` clauses convert every transport
error and timeout into a normal `(False, message)` return, so the
tenacity predicate `retry_if_exception_type` never fires and every
decorated call performs exactly one attempt — the configured up-to-3
retries with 2–10 s backoff are unreachable. A first-attempt timeout
is evaluated concretely. -/
theorem bulk_retry_never_fires :
    (∀ outcome : ℕ → BulkAttempt, tenacity_attempts (bulk_probe_call outcome) = 1) ∧
    tenacity_attempts (bulk_probe_call (fun _ => BulkAttempt.timeoutErr)) = 1 ∧
    check_opensearch_bulk_body BulkAttempt.timeoutErr = (false, some ("Timeout")) :=
  ⟨fun _ => rfl, rfl, rfl⟩

/-- Claim C1: whenever a connectivity cycle runs with a configured
endpoint, the `aws_ready` it writes equals the conjunction of the
`dns_ok`, `tls_ok` and `opensearch_ok` written in that same cycle,
whatever the probe outcomes. -/
theorem aws_ready_conjunction (endpoint : Option String) (dnsRes tlsRes : GatherRes)
    (bulkAttempt : BulkAttempt) (now : ℚ) (st : ConnState)
    (h : pyTruthy endpoint = true) :
    (run_all_checks endpoint dnsRes tlsRes bulkAttempt now st).state.aws_ready =
      ((run_all_checks endpoint dnsRes tlsRes bulkAttempt now st).state.dns_ok &&
       (run_all_checks endpoint dnsRes tlsRes bulkAttempt now st).state.tls_ok &&
       (run_all_checks endpoint dnsRes tlsRes bulkAttempt now st).state.opensearch_ok) := by
  simp [run_all_checks, h]

/-- Witness for C1: a concrete cycle with a configured endpoint,
successful DNS and TLS, and a decodable HTTP 200 bulk response. -/
theorem aws_ready_conjunction_witness :
    (run_all_checks (some ("https://demo.cluster.example:443")) (GatherRes.tup true (some ("1.2.3.4")))
        (GatherRes.tup true none) (BulkAttempt.http 200 true ("")) 0
        ⟨false, false, false, false, 0⟩).state.aws_ready =
      ((run_all_checks (some ("https://demo.cluster.example:443")) (GatherRes.tup true (some ("1.2.3.4")))
        (GatherRes.tup true none) (BulkAttempt.http 200 true ("")) 0
        ⟨false, false, false, false, 0⟩).state.dns_ok &&
       (run_all_checks (some ("https://demo.cluster.example:443")) (GatherRes.tup true (some ("1.2.3.4")))
        (GatherRes.tup true none) (BulkAttempt.http 200 true ("")) 0
        ⟨false, false, false, false, 0⟩).state.tls_ok &&
       (run_all_checks (some ("https://demo.cluster.example:443")) (GatherRes.tup true (some ("1.2.3.4")))
        (GatherRes.tup true none) (BulkAttempt.http 200 true ("")) 0
        ⟨false, false, false, false, 0⟩).state.opensearch_ok) :=
  aws_ready_conjunction (some ("https://demo.cluster.example:443")) (GatherRes.tup true (some ("1.2.3.4")))
    (GatherRes.tup true none) (BulkAttempt.http 200 true ("")) 0
    ⟨false, false, false, false, 0⟩ (by decide)

/-- Counterexample to claim C5 as stated: an HTTP 200 bulk response
whose body does not decode as JSON is recorded as failure by the probe
(the decode exception is caught and turned into `(False, message)`),
so "succeeds iff the status is 200 or 201" is false. -/
theorem bulk_success_counterexample : ¬ claimC5success := fun h =>
  absurd ((h 200 false ("decode error")).2 (Or.inl rfl)) (by decide)

/-- Claim C5 (amended): with a configured endpoint, the bulk probe is
performed iff both the DNS and TLS probes of the same cycle succeeded;
when skipped, `opensearch_ok` is set false for that cycle; when
performed, its outcome is the probe body's, which succeeds iff the
HTTP status is 200 or 201 AND the response body decodes as JSON. -/
theorem bulk_probe_gating (endpoint : Option String) (dnsRes tlsRes : GatherRes)
    (bulkAttempt : BulkAttempt) (now : ℚ) (st : ConnState)
    (h : pyTruthy endpoint = true) :
    ((run_all_checks endpoint dnsRes tlsRes bulkAttempt now st).bulk_attempted =
      ((run_all_checks endpoint dnsRes tlsRes bulkAttempt now st).state.dns_ok &&
       (run_all_checks endpoint dnsRes tlsRes bulkAttempt now st).state.tls_ok)) ∧
    ((run_all_checks endpoint dnsRes tlsRes bulkAttempt now st).bulk_attempted = false →
      (run_all_checks endpoint dnsRes tlsRes bulkAttempt now st).state.opensearch_ok = false) ∧
    ((run_all_checks endpoint dnsRes tlsRes bulkAttempt now st).bulk_attempted = true →
      (run_all_checks endpoint dnsRes tlsRes bulkAttempt now st).state.opensearch_ok =
        (check_opensearch_bulk_body bulkAttempt).1) ∧
    (∀ (stc : ℕ) (jsonOk : Bool) (msg : String),
      (check_opensearch_bulk_body (BulkAttempt.http stc jsonOk msg)).1 = true ↔
        ((stc = 200 ∨ stc = 201) ∧ jsonOk = true)) := by
  refine ⟨?_, ?_, ?_, ?_⟩
  · simp [run_all_checks, h]
  · intro hf
    simp only [run_all_checks, h] at hf ⊢
    simp only [Bool.true_eq_false, if_false, Bool.false_eq_true] at hf ⊢
    simp [hf]
  · intro ht
    simp only [run_all_checks, h] at ht ⊢
    simp only [Bool.true_eq_false, if_false, Bool.false_eq_true] at ht ⊢
    simp [ht]
  · intro stc jsonOk msg
    by_cases hst : stc = 200 ∨ stc = 201 <;> by_cases hj : jsonOk = true <;>
      simp [check_opensearch_bulk_body, hst, hj]

/-- Witness for C5: a cycle whose TLS probe failed skips the bulk probe
and clears `opensearch_ok`; the success criterion is instantiated at a
decodable HTTP 200 response. -/
theorem bulk_probe_gating_witness :
    ((run_all_checks (some ("https://demo.cluster.example:443")) (GatherRes.tup true none)
        (GatherRes.tup false (some ("Timeout"))) (BulkAttempt.http 200 true ("")) 0
        ⟨false, false, false, false, 0⟩).bulk_attempted =
      ((run_all_checks (some ("https://demo.cluster.example:443")) (GatherRes.tup true none)
        (GatherRes.tup false (some ("Timeout"))) (BulkAttempt.http 200 true ("")) 0
        ⟨false, false, false, false, 0⟩).state.dns_ok &&
       (run_all_checks (some ("https://demo.cluster.example:443")) (GatherRes.tup true none)
        (GatherRes.tup false (some ("Timeout"))) (BulkAttempt.http 200 true ("")) 0
        ⟨false, false, false, false, 0⟩).state.tls_ok)) ∧
    ((run_all_checks (some ("https://demo.cluster.example:443")) (GatherRes.tup true none)
        (GatherRes.tup false (some ("Timeout"))) (BulkAttempt.http 200 true ("")) 0
        ⟨false, false, false, false, 0⟩).bulk_attempted = false →
      (run_all_checks (some ("https://demo.cluster.example:443")) (GatherRes.tup true none)
        (GatherRes.tup false (some ("Timeout"))) (BulkAttempt.http 200 true ("")) 0
        ⟨false, false, false, false, 0⟩).state.opensearch_ok = false) ∧
    ((check_opensearch_bulk_body (BulkAttempt.http 200 true ("ok"))).1 = true ↔
      ((200 = 200 ∨ 200 = 201) ∧ true = true)) :=
  ⟨(bulk_probe_gating (some ("https://demo.cluster.example:443")) (GatherRes.tup true none)
      (GatherRes.tup false (some ("Timeout"))) (BulkAttempt.http 200 true ("")) 0
      ⟨false, false, false, false, 0⟩ (by decide)).1,
   (bulk_probe_gating (some ("https://demo.cluster.example:443")) (GatherRes.tup true none)
      (GatherRes.tup false (some ("Timeout"))) (BulkAttempt.http 200 true ("")) 0
      ⟨false, false, false, false, 0⟩ (by decide)).2.1,
   (bulk_probe_gating (some ("https://demo.cluster.example:443")) (GatherRes.tup true none)
      (GatherRes.tup false (some ("Timeout"))) (BulkAttempt.http 200 true ("")) 0
      ⟨false, false, false, false, 0⟩ (by decide)).2.2.2 200 true ("ok")⟩

/-- Counterexample to claim C3 as stated: starting the declared compose
service `vector` while the collaborator call fails returns HTTP 200
(with body status `error`), not the HTTP 500 the claim asserts for
collaborator failure. -/
theorem http500_counterexample :
    (start_service_route (some ("vector")) true false).http = 200 ∧
    (start_service_route (some ("vector")) true false).body_status = ("error") ∧
    ¬ (start_service_route (some ("vector")) true false).http = 500 := by
  refine ⟨?_, ?_, ?_⟩ <;> decide

/-- Claim C3 (amended): for a provided non-empty service name, an
unknown name (neither the packet inspector `suricata` nor a declared
compose service) yields HTTP 400 with body
`{"status":"error","message":"Unknown service: <name>"}` on both the
start and stop routes; a known name dispatches into the collaborator
and always yields HTTP 200, with body status `success` on collaborator
success and `error` on collaborator failure (never HTTP 500). -/
theorem control_route_dispatch (name : String) (s_ok d_ok : Bool) (h : ¬ name = ("")) :
    (¬ name = ("suricata") → ¬ name ∈ docker_services →
      start_service_route (some name) s_ok d_ok =
        ⟨400, ("error"), ("Unknown service: ") ++ name⟩ ∧
      stop_service_route (some name) s_ok d_ok =
        ⟨400, ("error"), ("Unknown service: ") ++ name⟩) ∧
    (name = ("suricata") →
      (start_service_route (some name) s_ok d_ok).http = 200 ∧
      (start_service_route (some name) s_ok d_ok).body_status =
        (if s_ok then ("success") else ("error")) ∧
      (stop_service_route (some name) s_ok d_ok).http = 200 ∧
      (stop_service_route (some name) s_ok d_ok).body_status =
        (if s_ok then ("success") else ("error"))) ∧
    (name ∈ docker_services →
      (start_service_route (some name) s_ok d_ok).http = 200 ∧
      (start_service_route (some name) s_ok d_ok).body_status =
        (if d_ok then ("success") else ("error")) ∧
      (stop_service_route (some name) s_ok d_ok).http = 200 ∧
      (stop_service_route (some name) s_ok d_ok).body_status =
        (if d_ok then ("success") else ("error"))) := by
  refine ⟨?_, ?_, ?_⟩
  · intro hns hnd
    constructor <;> simp [start_service_route, stop_service_route, h, hns, hnd]
  · intro hs
    subst hs
    refine ⟨?_, ?_, ?_, ?_⟩ <;> simp [start_service_route, stop_service_route]
  · intro hd
    have hns : ¬ name = ("suricata") := by
      intro he
      rw [he] at hd
      exact absurd hd (by decide)
    refine ⟨?_, ?_, ?_, ?_⟩ <;> simp [start_service_route, stop_service_route, h, hns, hd]

/-- Witness for C3 at the spec's scenario 5: the unknown name `ghost`
yields HTTP 400 with the exact error body on the start route. -/
theorem control_route_dispatch_witness :
    start_service_route (some ("ghost")) true true =
      ⟨400, ("error"), ("Unknown service: ") ++ ("ghost")⟩ :=
  ((control_route_dispatch ("ghost") true true (by decide)).1 (by decide) (by decide)).1

/-- A placeholder site passes validation iff a value equal to the
placeholder implies the environment variable is set and non-empty. -/
theorem validate_env_placeholder_iff (env : Env) (value : Option Leaf) (p env_var : String) :
    validate_env_placeholder env value p env_var = true ↔
      (value = some (Leaf.s p) → envTruthy env env_var = true) := by
  unfold validate_env_placeholder
  split_ifs with hv
  · simp [hv]
  · simp [hv]

/-- Counterexample to claim C4 as stated: a configuration containing
the string `ENV:OPENSEARCH_MASTER_USER` loads successfully under an
empty environment — the validation code never inspects `ENV:`-prefixed
strings, so load success is not equivalent to their resolution. -/
theorem env_form_counterexample : ¬ claimC4 envEmpty cfgC4 := by
  intro h
  have hok : validate_config envEmpty cfgC4 = true := by decide
  have hall := h.1 hok
  have hv := hall ("ENV:OPENSEARCH_MASTER_USER") (by decide) (by decide)
  exact absurd hv (by decide)

/-- Claim C4 (amended): the loader treats no `ENV:NAME` strings
specially; instead, given the required sections are present and the
resource bounds are valid, configuration load succeeds iff, for each
of the eight designated credential keys, a value equal to the key's
placeholder (the environment variable's own name) resolves to a set,
non-empty environment variable. -/
theorem config_load_placeholder_iff (env : Env) (cfg : Config)
    (hs : required_sections.all (fun s => dictContains cfg s) = true)
    (hb : resource_bounds_ok cfg = true) :
    (validate_config env cfg = true) ↔
      (∀ c ∈ placeholder_checks,
        sectionGet cfg c.sectionName c.keyName = some (Leaf.s c.envVar) →
          envTruthy env c.envVar = true) := by
  unfold validate_config
  rw [hs, hb]
  simp only [Bool.true_and, List.all_eq_true, validate_env_placeholder_iff]

/-- Witness for C4: a valid configuration whose `master_user` value
equals its placeholder, under an environment that sets the variable. -/
theorem config_load_placeholder_iff_witness :
    (validate_config envCreds cfgCreds = true) ↔
      (∀ c ∈ placeholder_checks,
        sectionGet cfgCreds c.sectionName c.keyName = some (Leaf.s c.envVar) →
          envTruthy envCreds c.envVar = true) :=
  config_load_placeholder_iff envCreds cfgCreds (by decide) (by decide)

/-- In-place update at a present key makes the key map to the value. -/
theorem dictGet_dictSetIn_self {α : Type} (m : List (String × α)) (k : String) (v : α)
    (h : dictContains m k = true) : dictGet (dictSetIn m k v) k = some v := by
  induction m with
  | nil => simp [dictContains, dictGet] at h
  | cons kv rest ih =>
    by_cases hk : kv.1 = k
    · simp [dictSetIn, dictGet, hk]
    · have h' : dictContains rest k = true := by
        simpa [dictContains, dictGet, hk] using h
      simp [dictSetIn, dictGet, hk, ih h']

/-- In-place update leaves every other key's value unchanged. -/
theorem dictGet_dictSetIn_ne {α : Type} (m : List (String × α)) (k k' : String) (v : α)
    (h : ¬ k' = k) : dictGet (dictSetIn m k v) k' = dictGet m k' := by
  induction m with
  | nil => rfl
  | cons kv rest ih =>
    by_cases hk : kv.1 = k
    · have hkk : ¬ k = k' := fun he => h he.symm
      simp [dictSetIn, dictGet, hk, hkk, ih]
    · simp [dictSetIn, dictGet, hk, ih]

/-- Appending a fresh key makes it retrievable. -/
theorem dictGet_append_self {α : Type} (m : List (String × α)) (k : String) (v : α)
    (h : dictContains m k = false) : dictGet (m ++ [(k, v)]) k = some v := by
  induction m with
  | nil => simp [dictGet]
  | cons kv rest ih =>
    by_cases hk : kv.1 = k
    · simp [dictContains, dictGet, hk] at h
    · have h' : dictContains rest k = false := by
        simpa [dictContains, dictGet, hk] using h
      simp [dictGet, hk, ih h']

/-- Appending one binding does not affect other keys. -/
theorem dictGet_append_ne {α : Type} (m : List (String × α)) (k k' : String) (v : α)
    (h : ¬ k' = k) : dictGet (m ++ [(k, v)]) k' = dictGet m k' := by
  induction m with
  | nil =>
    have hkk : ¬ k = k' := fun he => h he.symm
    simp [dictGet, hkk]
  | cons kv rest ih => by_cases hk : kv.1 = k' <;> simp [dictGet, hk, ih]

/-- Updating the just-appended fresh key rewrites only that binding. -/
theorem dictSetIn_append_self {α : Type} (m : List (String × α)) (k : String) (v v' : α)
    (h : dictContains m k = false) :
    dictSetIn (m ++ [(k, v')]) k v = m ++ [(k, v)] := by
  induction m with
  | nil => simp [dictSetIn]
  | cons kv rest ih =>
    by_cases hk : kv.1 = k
    · simp [dictContains, dictGet, hk] at h
    · have h' : dictContains rest k = false := by
        simpa [dictContains, dictGet, hk] using h
      simp [dictSetIn, hk, ih h']

/-- Python `dict[k] = v` makes `k` map to `v`. -/
theorem dictGet_dictSet_self {α : Type} (m : List (String × α)) (k : String) (v : α) :
    dictGet (dictSet m k v) k = some v := by
  unfold dictSet
  by_cases hc : dictContains m k = true
  · simp [hc, dictGet_dictSetIn_self m k v hc]
  · have hc' : dictContains m k = false := by simpa using hc
    simp [hc', dictGet_append_self m k v hc']

/-- Python `dict[k] = v` leaves every other key's value unchanged. -/
theorem dictGet_dictSet_ne {α : Type} (m : List (String × α)) (k k' : String) (v : α)
    (h : ¬ k' = k) : dictGet (dictSet m k v) k' = dictGet m k' := by
  unfold dictSet
  by_cases hc : dictContains m k
  · simp [hc, dictGet_dictSetIn_ne m k k' v h]
  · simp [hc, dictGet_append_ne m k k' v h]

/-- With an `aws` section present, the endpoint mutator rewrites the
config by updating that one section. -/
theorem set_aws_eq_of_some (cfg : Config) (e : String) (sec : SectionV)
    (hsec : dictGet cfg ("aws") = some sec) :
    set_aws_opensearch_endpoint cfg e =
      dictSet cfg ("aws") (dictSet sec ("opensearch_endpoint") (Leaf.s e)) := by
  have hc : dictContains cfg ("aws") = true := by simp [dictContains, hsec]
  simp [set_aws_opensearch_endpoint, hc, hsec]

/-- With no `aws` section, the endpoint mutator appends a fresh one
holding only the endpoint key. -/
theorem set_aws_eq_of_none (cfg : Config) (e : String)
    (hsec : dictGet cfg ("aws") = none) :
    set_aws_opensearch_endpoint cfg e =
      cfg ++ [(("aws"), [(("opensearch_endpoint"), Leaf.s e)])] := by
  have hc : dictContains cfg ("aws") = false := by simp [dictContains, hsec]
  have h1 : dictSet cfg ("aws") ([] : SectionV) = cfg ++ [(("aws"), ([] : SectionV))] := by
    simp [dictSet, hc]
  have hget : dictGet (cfg ++ [(("aws"), ([] : SectionV))]) ("aws") = some ([] : SectionV) :=
    dictGet_append_self cfg ("aws") [] hc
  have hc2 : dictContains (cfg ++ [(("aws"), ([] : SectionV))]) ("aws") = true := by
    simp [dictContains, hget]
  simp only [set_aws_opensearch_endpoint, dictContains, hsec, Option.isSome_none,
    Bool.false_eq_true, if_false, h1, hget]
  have h2 : dictSet ([] : SectionV) ("opensearch_endpoint") (Leaf.s e) =
      [(("opensearch_endpoint"), Leaf.s e)] := rfl
  rw [h2]
  simp only [dictSet, hc2, if_true]
  exact dictSetIn_append_self cfg ("aws") _ _ hc

/-- Claim C9: setting the remote endpoint and reloading from the saved
file yields a configuration whose `aws.opensearch_endpoint` equals the
new value, while every key other than `aws.opensearch_endpoint` is
preserved by the rewrite (provided the saved configuration passes
validation, without which `reload` raises). -/
theorem set_endpoint_reload (env : Env) (cfg : Config) (e : String)
    (h : validate_config env (set_aws_opensearch_endpoint cfg e) = true) :
    reload_config env (set_aws_opensearch_endpoint cfg e) =
      some (set_aws_opensearch_endpoint cfg e) ∧
    sectionGet (set_aws_opensearch_endpoint cfg e) ("aws") ("opensearch_endpoint") =
      some (Leaf.s e) ∧
    (∀ s k : String, ¬ (s = ("aws") ∧ k = ("opensearch_endpoint")) →
      sectionGet (set_aws_opensearch_endpoint cfg e) s k = sectionGet cfg s k) := by
  refine ⟨by simp [reload_config, h], ?_, ?_⟩
  · rcases hsec : dictGet cfg ("aws") with _ | sec
    · rw [set_aws_eq_of_none cfg e hsec]
      have hc : dictContains cfg ("aws") = false := by simp [dictContains, hsec]
      simp [sectionGet, dictGet_append_self cfg ("aws") _ hc, dictGet]
    · rw [set_aws_eq_of_some cfg e sec hsec]
      simp [sectionGet, dictGet_dictSet_self]
  · intro s k hnot
    rcases hsec : dictGet cfg ("aws") with _ | sec
    · rw [set_aws_eq_of_none cfg e hsec]
      by_cases hs : s = ("aws")
      · have hk : ¬ k = ("opensearch_endpoint") := fun he => hnot ⟨hs, he⟩
        have hk' : ¬ ("opensearch_endpoint") = k := fun he => hk he.symm
        subst hs
        have hc : dictContains cfg ("aws") = false := by simp [dictContains, hsec]
        simp [sectionGet, dictGet_append_self cfg ("aws") _ hc, hsec, dictGet, hk, hk']
      · simp only [sectionGet, dictGet_append_ne cfg ("aws") s _ hs]
    · rw [set_aws_eq_of_some cfg e sec hsec]
      by_cases hs : s = ("aws")
      · have hk : ¬ k = ("opensearch_endpoint") := fun he => hnot ⟨hs, he⟩
        subst hs
        simp [sectionGet, dictGet_dictSet_self, hsec,
          dictGet_dictSet_ne sec ("opensearch_endpoint") k (Leaf.s e) hk]
      · simp only [sectionGet, dictGet_dictSet_ne cfg ("aws") s _ hs]

/-- Witness for C9: the endpoint of scenario 1 is written into a valid
configuration; reload returns it, the endpoint reads back, and an
unrelated key (`resources.max_cpu_percent`) is untouched. -/
theorem set_endpoint_reload_witness :
    reload_config envCreds
        (set_aws_opensearch_endpoint cfgCreds ("https://demo.cluster.example:443")) =
      some (set_aws_opensearch_endpoint cfgCreds ("https://demo.cluster.example:443")) ∧
    sectionGet (set_aws_opensearch_endpoint cfgCreds ("https://demo.cluster.example:443"))
        ("aws") ("opensearch_endpoint") =
      some (Leaf.s ("https://demo.cluster.example:443")) ∧
    sectionGet (set_aws_opensearch_endpoint cfgCreds ("https://demo.cluster.example:443"))
        ("resources") ("max_cpu_percent") =
      sectionGet cfgCreds ("resources") ("max_cpu_percent") :=
  ⟨(set_endpoint_reload envCreds cfgCreds ("https://demo.cluster.example:443") (by decide)).1,
   (set_endpoint_reload envCreds cfgCreds ("https://demo.cluster.example:443") (by decide)).2.1,
   (set_endpoint_reload envCreds cfgCreds ("https://demo.cluster.example:443") (by decide)).2.2
     ("resources") ("max_cpu_percent") (by decide)⟩

end IDS
